import Mathlib

/-!
Verification of the Grok Live Search core (`grok_live_search_api.py`).

The module is embedded shallowly: Python dicts that serve as JSON values
become the inductive `Json`; a dict whose keys are known strings becomes a
Lean structure whose `Option` fields record presence of the key (`none`
means the key is absent from the serialized form); Python functions that
can raise become functions into `Except`; the single network call made by
`execute_search` is modelled by passing the network's behaviour in as an
explicit `NetResult` argument, and the outcome records how many network
calls were made and which payload was sent.
-/

set_option autoImplicit false

/-- A JSON-like Python value: `None`, `bool`, `int`, `str`, `list`, `dict`. -/
inductive Json where
  | null
  | bool (b : Bool)
  | num (n : Int)
  | str (s : String)
  | arr (xs : List Json)
  | obj (fields : List (String × Json))
deriving Repr

mutual

/-- Structural equality test on `Json` (Python `==` on decoded values). -/
def Json.beq : Json → Json → Bool
  | .null, .null => true
  | .bool a, .bool b => a == b
  | .num a, .num b => a == b
  | .str a, .str b => a == b
  | .arr xs, .arr ys => Json.beqList xs ys
  | .obj fs, .obj gs => Json.beqFields fs gs
  | _, _ => false

/-- Elementwise equality test on lists of `Json`. -/
def Json.beqList : List Json → List Json → Bool
  | [], [] => true
  | x :: xs, y :: ys => Json.beq x y && Json.beqList xs ys
  | _, _ => false

/-- Entrywise equality test on dict entries. -/
def Json.beqFields : List (String × Json) → List (String × Json) → Bool
  | [], [] => true
  | (k, v) :: fs, (l, w) :: gs => k == l && Json.beq v w && Json.beqFields fs gs
  | _, _ => false

end

instance : BEq Json := ⟨Json.beq⟩

/-- Python truthiness of a `Json` value (`bool(v)`). -/
def Json.truthy : Json → Bool
  | .null => false
  | .bool b => b
  | .num n => n != 0
  | .str s => s != ""
  | .arr xs => !xs.isEmpty
  | .obj fs => !fs.isEmpty

/-- Dict lookup `d.get(k)`: the value stored under key `k`, if present. -/
def lookupJ (fs : List (String × Json)) (k : String) : Option Json :=
  (fs.find? (fun p => p.1 == k)).map (fun p => p.2)

/-- Is `needle` a leading segment of `hay`? (helper for substring search). -/
def charsLead : List Char → List Char → Bool
  | [], _ => true
  | _ :: _, [] => false
  | a :: as, b :: bs => a == b && charsLead as bs

/-- Does `hay` contain `needle` as a contiguous run of characters? -/
def charsContain (needle : List Char) : List Char → Bool
  | [] => needle.isEmpty
  | b :: bs => charsLead needle (b :: bs) || charsContain needle bs

/-- Python `needle in hay` for strings: substring containment. -/
def strContains (hay needle : String) : Bool :=
  charsContain needle.data hay.data

/-- Python `k in v` where `k` is a string: key membership on a dict,
substring on a string, element membership on a list; a `TypeError` on
values that are not containers. -/
def pyContains (k : String) : Json → Except String Bool
  | .obj fs => .ok (lookupJ fs k).isSome
  | .str s => .ok (strContains s k)
  | .arr xs => .ok (xs.contains (Json.str k))
  | _ => .error "TypeError: argument is not iterable"

/-- Python `v[0]`: head of a list, first character of a string (an
`IndexError` when empty), a `KeyError` on a string-keyed dict, and a
`TypeError` on anything not subscriptable. -/
def pySubscriptZero : Json → Except String Json
  | .arr [] => .error "IndexError: list index out of range"
  | .arr (x :: _) => .ok x
  | .str s =>
    match s.data with
    | [] => .error "IndexError: string index out of range"
    | c :: _ => .ok (.str (String.mk [c]))
  | .obj _ => .error "KeyError: 0"
  | _ => .error "TypeError: object is not subscriptable"

/-- Python `v[k]` with a string key `k`: dict lookup (a `KeyError` when
the key is absent), and a `TypeError` on strings, lists and scalars,
whose indices must be integers. -/
def pyGetStr (v : Json) (k : String) : Except String Json :=
  match v with
  | .obj fs =>
    match lookupJ fs k with
    | some r => .ok r
    | none => .error "KeyError"
  | _ => .error "TypeError: indices must be integers"

/-- Truthy filter on an optional string argument: Python `if s:` admits
`s` only when it is given and non-empty. -/
def truthyStrOpt : Option String → Option String
  | none => none
  | some s => if s == "" then none else some s

/-- Truthy filter on an optional list argument: Python `if l:` admits
`l` only when it is given and non-empty. -/
def truthyListOpt {α : Type} : Option (List α) → Option (List α)
  | none => none
  | some [] => none
  | some (x :: xs) => some (x :: xs)

/-- A source configuration dict as built by `build_source_config`.
`none` in an `Option` field means the key is absent from the dict (and
hence from its serialized form). -/
structure SourceConfig where
  type : String
  country : Option String
  excluded_websites : Option (List String)
  safe_search : Option Bool
  x_handles : Option (List String)
  links : Option (List String)
deriving Repr, DecidableEq

/-- `GrokLiveSearchAPI.build_source_config`: starts from
`{"type": source_type}` and adds the options admitted for the given
source type, each guarded the way the Python code guards it (truthiness
for `country`, `excluded_websites`, `x_handles`, `links`; an explicit
`is not None` test for `safe_search`). An unrecognized `source_type`
falls through every branch and yields the type-only dict. -/
def build_source_config (source_type : String) (country : Option String)
    (excluded_websites : Option (List String)) (safe_search : Option Bool)
    (x_handles : Option (List String)) (links : Option (List String)) :
    SourceConfig :=
  if source_type = "web" ∨ source_type = "news" then
    { type := source_type
      country := truthyStrOpt country
      excluded_websites := truthyListOpt excluded_websites
      safe_search := safe_search
      x_handles := none
      links := none }
  else if source_type = "x" then
    { type := source_type
      country := none
      excluded_websites := none
      safe_search := none
      x_handles := truthyListOpt x_handles
      links := none }
  else if source_type = "rss" then
    { type := source_type
      country := none
      excluded_websites := none
      safe_search := none
      x_handles := none
      links := truthyListOpt links }
  else
    { type := source_type
      country := none
      excluded_websites := none
      safe_search := none
      x_handles := none
      links := none }

/-- The search parameters dict as built by `build_search_parameters`.
`none` in an `Option` field means the key is absent. -/
structure SearchParams where
  mode : String
  sources : Option (List SourceConfig)
  from_date : Option String
  to_date : Option String
  max_search_results : Int
  return_citations : Bool
deriving Repr, DecidableEq

/-- `GrokLiveSearchAPI.build_search_parameters`: always records `mode`,
`max_search_results` and `return_citations`; records `sources`,
`from_date` and `to_date` only when the argument is truthy (given and
non-empty). -/
def build_search_parameters (mode : String)
    (sources : Option (List SourceConfig))
    (from_date : Option String) (to_date : Option String)
    (max_search_results : Int) (return_citations : Bool) : SearchParams :=
  { mode := mode
    sources := truthyListOpt sources
    from_date := truthyStrOpt from_date
    to_date := truthyStrOpt to_date
    max_search_results := max_search_results
    return_citations := return_citations }

/-- The Python call `build_search_parameters()` with every argument left
at its default. -/
def default_search_parameters : SearchParams :=
  build_search_parameters "auto" none none none 20 true

/-- Python's Unicode whitespace test (CPython's `Py_UNICODE_ISSPACE`),
the character class `str.strip()` removes: the control whitespace
U+0009..U+000D and U+001C..U+001F, the space, NEL U+0085, the no-break
space U+00A0, U+1680, the Unicode space separators U+2000..U+200A,
U+202F, U+205F and U+3000, and the line and paragraph separators
U+2028 and U+2029. -/
def pyIsSpace (c : Char) : Bool :=
  let n := c.toNat
  (9 ≤ n && n ≤ 13) || (28 ≤ n && n ≤ 32) || n == 133 || n == 160 ||
    n == 5760 || (8192 ≤ n && n ≤ 8202) || n == 8232 || n == 8233 ||
    n == 8239 || n == 8287 || n == 12288

/-- Drop the leading Python-whitespace characters of a character
list. -/
def dropWhileWs : List Char → List Char
  | [] => []
  | c :: cs => if pyIsSpace c then dropWhileWs cs else c :: cs

/-- Python `str.strip()`: remove leading and trailing characters of
Python's Unicode whitespace class. -/
def pyStrip (s : String) : String :=
  String.mk (List.reverse (dropWhileWs (List.reverse (dropWhileWs s.data))))

/-- `GrokLiveSearchAPI.validate_api_key`:
`bool(self.api_key) and len(self.api_key.strip()) > 0`. The key is
`none` when never set. -/
def validate_api_key (api_key : Option String) : Bool :=
  match api_key with
  | none => false
  | some s => s != "" && pyStrip s != ""

/-- One entry of the `messages` list of the request payload. -/
structure Message where
  role : String
  content : String
deriving Repr, DecidableEq

/-- The JSON body POSTed by `execute_search`: the single user message,
the search parameters and the model identifier. -/
structure Payload where
  messages : List Message
  search_parameters : SearchParams
  model : String
deriving Repr, DecidableEq

/-- The exceptions `execute_search` can raise: the `ValueError` for a
missing or invalid key, and the generic `requests.RequestException` that
the final `except` clause re-raises, carrying only a formatted message. -/
inductive PyError where
  | valueError (msg : String)
  | requestException (msg : String)
deriving Repr, DecidableEq

/-- The Python class of an `execute_search` outcome, used to compare
failure kinds: the re-raise in the source always produces the base
`requests.RequestException` class, never a subclass. -/
def errClassOf : Except PyError Json → String
  | .ok _ => "ok"
  | .error (.valueError _) => "ValueError"
  | .error (.requestException _) => "RequestException"

/-- The behaviour of the one network call `requests.post` makes: either
the transport fails (DNS, connection refused, timeout — `requests.post`
raises), or a response arrives with an HTTP status, a text body, and the
decoded JSON body when the text is decodable. -/
inductive NetResult where
  | transportFail (cause : String)
  | response (status : Nat) (body : String) (jsonBody : Option Json)
deriving Repr

/-- Models `str(e)` for the `requests.HTTPError` that
`raise_for_status` raises on a 4xx/5xx status: the message is built from
the status code, reason and URL only — the response body never appears
in it. -/
def httpErrorStr (status : Nat) : String :=
  toString status ++ (if status < 500 then " Client Error for url" else " Server Error for url")

/-- Models `str(e)` for the `requests.JSONDecodeError` raised by
`response.json()` on an undecodable body. -/
def jsonDecodeErrorStr : String := "Expecting value"

/-- The observable outcome of one `execute_search` call: how many
network requests went out, the payload of the request that was sent (if
any), and the returned JSON or the raised exception. -/
structure ExecOutcome where
  netCalls : Nat
  sent : Option Payload
  result : Except PyError Json
deriving Repr

/-- The try/except block of `execute_search`: `requests.post` raises on
a transport failure, `raise_for_status` raises `HTTPError` on a 4xx/5xx
status, `response.json()` raises on an undecodable body, and the
`except requests.RequestException` clause catches each of these and
re-raises the base class wrapping `"API request failed: " + str(e)`.
On success the decoded JSON body is returned unmodified. -/
def requestOutcome : NetResult → Except PyError Json
  | .transportFail cause =>
    .error (.requestException ("API request failed: " ++ cause))
  | .response status _body jsonBody =>
    if 400 ≤ status ∧ status < 600 then
      .error (.requestException ("API request failed: " ++ httpErrorStr status))
    else
      match jsonBody with
      | some j => .ok j
      | none => .error (.requestException ("API request failed: " ++ jsonDecodeErrorStr))

/-- `GrokLiveSearchAPI.execute_search`: raises `ValueError` before any
network activity when `validate_api_key` fails; otherwise substitutes
`build_search_parameters()` for an absent `search_parameters`, builds
the payload, and performs the POST, whose outcome is `requestOutcome`
of the network's behaviour. -/
def execute_search (api_key : Option String) (query : String)
    (model : String) (search_parameters : Option SearchParams)
    (net : NetResult) : ExecOutcome :=
  if validate_api_key api_key then
    let params := match search_parameters with
      | none => build_search_parameters "auto" none none none 20 true
      | some p => p
    let payload : Payload :=
      { messages := [{ role := "user", content := query }]
        search_parameters := params
        model := model }
    { netCalls := 1, sent := some payload, result := requestOutcome net }
  else
    { netCalls := 0, sent := none
      result := .error (.valueError "API key is not set or is invalid") }

/-- The dict returned by `parse_response`: extracted `content` and
`citations` (arbitrary `Json`, since the code copies whatever value is
stored there) and the untouched original response. -/
structure ParsedResult where
  content : Json
  citations : Json
  raw : List (String × Json)
deriving Repr

/-- The statement `if "message" in choice and "content" in
choice["message"]: parsed["content"] = choice["message"]["content"]` of
`parse_response`: the value `parsed["content"]` holds afterwards, or the
exception the statement raises. -/
def extract_content (choice : Json) : Except String Json :=
  match pyContains "message" choice with
  | .error e => .error e
  | .ok hasMsg =>
    if hasMsg then
      match pyGetStr choice "message" with
      | .error e => .error e
      | .ok msg =>
        match pyContains "content" msg with
        | .error e => .error e
        | .ok hasContent =>
          if hasContent then pyGetStr msg "content" else .ok (.str "")
    else .ok (.str "")

/-- The statement `if "citations" in choice: parsed["citations"] =
choice["citations"]` of `parse_response`: the value
`parsed["citations"]` holds afterwards, or the exception the statement
raises. -/
def extract_citations (choice : Json) : Except String Json :=
  match pyContains "citations" choice with
  | .error e => .error e
  | .ok hasCit =>
    if hasCit then pyGetStr choice "citations" else .ok (.arr [])

/-- `GrokLiveSearchAPI.parse_response`, translated statement by
statement, with each dynamic operation (`in`, `[0]`, `[k]`) modelled by
the corresponding Python semantics that may raise: the function returns
`Except.error` exactly when the Python code would raise. The input is
the response dict (the declared `Dict[str, Any]` contract). -/
def parse_response (response : List (String × Json)) :
    Except String ParsedResult :=
  match lookupJ response "choices" with
  | none => .ok ⟨.str "", .arr [], response⟩
  | some choicesVal =>
    if choicesVal.truthy then
      match pySubscriptZero choicesVal with
      | .error e => .error e
      | .ok choice =>
        match extract_content choice with
        | .error e => .error e
        | .ok content =>
          match extract_citations choice with
          | .error e => .error e
          | .ok citations => .ok ⟨content, citations, response⟩
    else .ok ⟨.str "", .arr [], response⟩

/-- Modelled from the spec: the SourceConfig builder as the spec
describes it, which "fails only if `kind` is not one of the four
recognized values (`UnknownSourceKind` error)". Used to compare the
spec's required failure behaviour with the source's builder, which is
total. -/
def build_source_config_spec (source_type : String) (country : Option String)
    (excluded_websites : Option (List String)) (safe_search : Option Bool)
    (x_handles : Option (List String)) (links : Option (List String)) :
    Except String SourceConfig :=
  if source_type = "web" ∨ source_type = "x" ∨ source_type = "news" ∨ source_type = "rss" then
    .ok (build_source_config source_type country excluded_websites safe_search x_handles links)
  else
    .error "UnknownSourceKind"

/-- The first element of the response's `choices` list, in the spec's
sense: present exactly when `choices` is present and a non-empty list. -/
def spec_first_choice (response : List (String × Json)) : Option Json :=
  match lookupJ response "choices" with
  | some (.arr (x :: _)) => some x
  | _ => none

/-- The content a choice carries, in the spec's sense: the value under
`content` of a nested dict `message` body, verbatim; the empty string
when the chain is absent. -/
def spec_content_of_choice : Json → Json
  | .obj o =>
    match lookupJ o "message" with
    | some (.obj m) =>
      match lookupJ m "content" with
      | some v => v
      | none => .str ""
    | _ => .str ""
  | _ => .str ""

/-- The citations a choice carries, in the spec's sense: the value
under its `citations` key copied verbatim (order and duplicates
preserved); the empty list when the key is absent. -/
def spec_citations_of_choice : Json → Json
  | .obj o =>
    match lookupJ o "citations" with
    | some v => v
    | none => .arr []
  | _ => .arr []

/-- The content the spec says `parse` extracts from a response. -/
def spec_content (response : List (String × Json)) : Json :=
  match spec_first_choice response with
  | some ch => spec_content_of_choice ch
  | none => .str ""

/-- The citations the spec says `parse` extracts from a response. -/
def spec_citations (response : List (String × Json)) : Json :=
  match spec_first_choice response with
  | some ch => spec_citations_of_choice ch
  | none => .arr []

/-- Response shapes on which `parse_response` cannot raise: `choices`
absent or falsy, or a list whose first element is a dict whose
`message` value, when the key is present, is itself a dict. -/
def goodShape (response : List (String × Json)) : Bool :=
  match lookupJ response "choices" with
  | none => true
  | some v =>
    if v.truthy then
      match v with
      | .arr (Json.obj o :: _) =>
        match lookupJ o "message" with
        | none => true
        | some (.obj _) => true
        | some _ => false
      | _ => false
    else true

/-! ### Helper lemmas about the parser -/

/-- A needle of at least two characters is never contained in a
one-character haystack. -/
theorem charsContain_singleton (nd : List Char) (c : Char)
    (h : 2 ≤ nd.length) : charsContain nd [c] = false := by
  match nd with
  | a :: b :: rest => simp [charsContain, charsLead]
  | [] => simp at h
  | [a] => simp at h

/-- Whenever the first if-statement of `parse_response` runs without
raising, the content it leaves behind is the spec-described content of
the choice. -/
theorem extract_content_ok (choice : Json) (c : Json)
    (h : extract_content choice = Except.ok c) :
    c = spec_content_of_choice choice := by
  cases choice with
  | null => simp [extract_content, pyContains] at h
  | bool b => simp [extract_content, pyContains] at h
  | num n => simp [extract_content, pyContains] at h
  | str s =>
    cases hsc : strContains s "message" with
    | true => simp [extract_content, pyContains, pyGetStr, hsc] at h
    | false =>
      simp [extract_content, pyContains, hsc] at h
      simp [← h, spec_content_of_choice]
  | arr l =>
    cases hsc : l.contains (Json.str "message") with
    | true => simp [extract_content, pyContains, pyGetStr, hsc] at h
    | false =>
      simp [extract_content, pyContains, hsc] at h
      simp [← h, spec_content_of_choice]
  | obj o =>
    cases hm : lookupJ o "message" with
    | none =>
      simp [extract_content, pyContains, hm] at h
      simp [← h, spec_content_of_choice, hm]
    | some m =>
      cases m with
      | null => simp [extract_content, pyContains, pyGetStr, hm] at h
      | bool b => simp [extract_content, pyContains, pyGetStr, hm] at h
      | num n => simp [extract_content, pyContains, pyGetStr, hm] at h
      | str s =>
        cases hct : strContains s "content" with
        | true => simp [extract_content, pyContains, pyGetStr, hm, hct] at h
        | false =>
          simp [extract_content, pyContains, pyGetStr, hm, hct] at h
          simp [← h, spec_content_of_choice, hm]
      | arr l =>
        cases hct : l.contains (Json.str "content") with
        | true => simp [extract_content, pyContains, pyGetStr, hm, hct] at h
        | false =>
          simp [extract_content, pyContains, pyGetStr, hm, hct] at h
          simp [← h, spec_content_of_choice, hm]
      | obj m2 =>
        cases hct : lookupJ m2 "content" with
        | none =>
          simp [extract_content, pyContains, pyGetStr, hm, hct] at h
          simp [← h, spec_content_of_choice, hm, hct]
        | some v =>
          simp [extract_content, pyContains, pyGetStr, hm, hct] at h
          simp [← h, spec_content_of_choice, hm, hct]

/-- Whenever the second if-statement of `parse_response` runs without
raising, the citations it leaves behind are the spec-described
citations of the choice. -/
theorem extract_citations_ok (choice : Json) (c : Json)
    (h : extract_citations choice = Except.ok c) :
    c = spec_citations_of_choice choice := by
  cases choice with
  | null => simp [extract_citations, pyContains] at h
  | bool b => simp [extract_citations, pyContains] at h
  | num n => simp [extract_citations, pyContains] at h
  | str s =>
    cases hsc : strContains s "citations" with
    | true => simp [extract_citations, pyContains, pyGetStr, hsc] at h
    | false =>
      simp [extract_citations, pyContains, hsc] at h
      simp [← h, spec_citations_of_choice]
  | arr l =>
    cases hsc : l.contains (Json.str "citations") with
    | true => simp [extract_citations, pyContains, pyGetStr, hsc] at h
    | false =>
      simp [extract_citations, pyContains, hsc] at h
      simp [← h, spec_citations_of_choice]
  | obj o =>
    cases hm : lookupJ o "citations" with
    | none =>
      simp [extract_citations, pyContains, hm] at h
      simp [← h, spec_citations_of_choice, hm]
    | some v =>
      simp [extract_citations, pyContains, pyGetStr, hm] at h
      simp [← h, spec_citations_of_choice, hm]

/-- When `choices` maps to a falsy value, the spec sees no first
choice. -/
theorem spec_first_choice_none_of_falsy (resp : List (String × Json))
    (v : Json) (hc : lookupJ resp "choices" = some v)
    (htv : v.truthy = false) : spec_first_choice resp = none := by
  cases v with
  | arr xs =>
    cases xs with
    | nil => simp [spec_first_choice, hc]
    | cons x rest => simp [Json.truthy] at htv
  | null => simp [spec_first_choice, hc]
  | bool b => simp [spec_first_choice, hc]
  | num n => simp [spec_first_choice, hc]
  | str s => simp [spec_first_choice, hc]
  | obj fs => simp [spec_first_choice, hc]

/-- When `choices[0]` evaluates without raising, the spec-described
content and citations of the response are those of the evaluated
choice. -/
theorem spec_of_first (resp : List (String × Json)) (v choice : Json)
    (hc : lookupJ resp "choices" = some v)
    (hch : pySubscriptZero v = Except.ok choice) :
    spec_content resp = spec_content_of_choice choice ∧
    spec_citations resp = spec_citations_of_choice choice := by
  cases v with
  | null => simp [pySubscriptZero] at hch
  | bool b => simp [pySubscriptZero] at hch
  | num n => simp [pySubscriptZero] at hch
  | obj fs => simp [pySubscriptZero] at hch
  | str s =>
    rw [pySubscriptZero] at hch
    cases hd : s.data with
    | nil => rw [hd] at hch; simp at hch
    | cons ch cs =>
      rw [hd] at hch
      simp only [Except.ok.injEq] at hch
      rw [← hch]
      simp [spec_content, spec_citations, spec_first_choice, hc,
        spec_content_of_choice, spec_citations_of_choice]
  | arr xs =>
    cases xs with
    | nil => simp [pySubscriptZero] at hch
    | cons x rest =>
      simp only [pySubscriptZero, Except.ok.injEq] at hch
      rw [← hch]
      simp [spec_content, spec_citations, spec_first_choice, hc]

/-- Whenever `parse_response` runs without raising, its result is
exactly the spec-described extraction together with the untouched
input. -/
theorem parse_ok_spec (resp : List (String × Json)) (r : ParsedResult)
    (h : parse_response resp = Except.ok r) :
    r = ⟨spec_content resp, spec_citations resp, resp⟩ := by
  unfold parse_response at h
  split at h
  next hc =>
    injection h with h
    simp [← h, spec_content, spec_citations, spec_first_choice, hc]
  next v hc =>
    split at h
    next htv =>
      split at h
      next e hch => simp at h
      next choice hch =>
        split at h
        next e hec => simp at h
        next c hec =>
          split at h
          next e hecit => simp at h
          next cit hecit =>
            injection h with h
            rw [← h]
            rw [extract_content_ok choice c hec,
              extract_citations_ok choice cit hecit]
            have hs := spec_of_first resp v choice hc hch
            rw [hs.1, hs.2]
    next htv =>
      injection h with h
      have hv : v.truthy = false := by
        cases hb : v.truthy with
        | false => rfl
        | true => exact absurd hb htv
      rw [← h]
      simp [spec_content, spec_citations,
        spec_first_choice_none_of_falsy resp v hc hv]

/-- On every response of good shape, `parse_response` returns (it
cannot raise), and its result is the spec-described extraction. -/
theorem parse_goodShape_ok (resp : List (String × Json))
    (h : goodShape resp = true) :
    parse_response resp
      = Except.ok ⟨spec_content resp, spec_citations resp, resp⟩ := by
  suffices hex : ∃ r, parse_response resp = Except.ok r by
    obtain ⟨r, hr⟩ := hex
    rw [hr, parse_ok_spec resp r hr]
  unfold goodShape at h
  unfold parse_response
  cases hc : lookupJ resp "choices" with
  | none => exact ⟨_, rfl⟩
  | some v =>
    rw [hc] at h
    simp only [] at h ⊢
    cases htv : v.truthy with
    | false =>
      rw [if_neg (by simp)]
      exact ⟨_, rfl⟩
    | true =>
      simp only [htv, if_true] at h
      rw [if_pos rfl]
      cases v with
      | null => simp at h
      | bool b => simp at h
      | num n => simp at h
      | str s => simp at h
      | obj fs => simp at h
      | arr xs =>
        cases xs with
        | nil => simp at h
        | cons x rest =>
          cases x with
          | null => simp at h
          | bool b => simp at h
          | num n => simp at h
          | str s => simp at h
          | arr l => simp at h
          | obj o =>
            simp only [] at h
            have hecit : ∃ cit, extract_citations (Json.obj o) = Except.ok cit := by
              cases hcit : lookupJ o "citations" with
              | none =>
                exact ⟨Json.arr [], by simp [extract_citations, pyContains, hcit]⟩
              | some cw =>
                exact ⟨cw, by simp [extract_citations, pyContains, pyGetStr, hcit]⟩
            obtain ⟨cit, hcit⟩ := hecit
            cases hm : lookupJ o "message" with
            | none =>
              have hec : extract_content (Json.obj o) = Except.ok (Json.str "") := by
                simp [extract_content, pyContains, hm]
              exact ⟨⟨Json.str "", cit, resp⟩, by
                simp [pySubscriptZero, hec, hcit]⟩
            | some m =>
              rw [hm] at h
              cases m with
              | null => simp at h
              | bool b => simp at h
              | num n => simp at h
              | str s => simp at h
              | arr l => simp at h
              | obj m2 =>
                cases hct : lookupJ m2 "content" with
                | none =>
                  have hec : extract_content (Json.obj o) = Except.ok (Json.str "") := by
                    simp [extract_content, pyContains, pyGetStr, hm, hct]
                  exact ⟨⟨Json.str "", cit, resp⟩, by
                    simp [pySubscriptZero, hec, hcit]⟩
                | some cv =>
                  have hec : extract_content (Json.obj o) = Except.ok cv := by
                    simp [extract_content, pyContains, pyGetStr, hm, hct]
                  exact ⟨⟨cv, cit, resp⟩, by
                    simp [pySubscriptZero, hec, hcit]⟩

/-! ### The claims -/

/-- C2: for every query, model, parameters and network behaviour, a key
that is unset, or empty after stripping whitespace, fails the credential
check and makes `execute_search` raise the missing-credential
`ValueError` with no network activity (zero network calls, nothing
sent); a key that is non-empty after stripping passes the check. -/
theorem C2_missing_credential_before_network (s t q m : String)
    (p : Option SearchParams) (net : NetResult)
    (hs : pyStrip s = "") (ht : pyStrip t ≠ "") :
    validate_api_key none = false ∧
    validate_api_key (some s) = false ∧
    validate_api_key (some t) = true ∧
    (execute_search none q m p net).netCalls = 0 ∧
    (execute_search (some s) q m p net).netCalls = 0 ∧
    (execute_search none q m p net).sent = none ∧
    (execute_search (some s) q m p net).sent = none ∧
    (execute_search none q m p net).result
      = Except.error (PyError.valueError "API key is not set or is invalid") ∧
    (execute_search (some s) q m p net).result
      = Except.error (PyError.valueError "API key is not set or is invalid") := by
  have ht' : t ≠ "" := by
    intro he
    exact ht (by rw [he]; rfl)
  have hvs : validate_api_key (some s) = false := by
    simp [validate_api_key, hs]
  have hvt : validate_api_key (some t) = true := by
    simp only [validate_api_key, Bool.and_eq_true, bne_iff_ne]
    exact ⟨ht', ht⟩
  have hvn : validate_api_key none = false := rfl
  refine ⟨rfl, hvs, hvt, ?_, ?_, ?_, ?_, ?_, ?_⟩ <;>
    simp [execute_search, hvs, hvn]

/-- C2 witness at the whitespace-only key `"  "` and the valid key
`"k"`. -/
theorem C2_missing_credential_before_network_witness :
    validate_api_key none = false ∧
    validate_api_key (some "  ") = false ∧
    validate_api_key (some "k") = true ∧
    (execute_search none "q" "grok-3-latest" none (NetResult.transportFail "dns")).netCalls = 0 ∧
    (execute_search (some "  ") "q" "grok-3-latest" none (NetResult.transportFail "dns")).netCalls = 0 ∧
    (execute_search none "q" "grok-3-latest" none (NetResult.transportFail "dns")).sent = none ∧
    (execute_search (some "  ") "q" "grok-3-latest" none (NetResult.transportFail "dns")).sent = none ∧
    (execute_search none "q" "grok-3-latest" none (NetResult.transportFail "dns")).result
      = Except.error (PyError.valueError "API key is not set or is invalid") ∧
    (execute_search (some "  ") "q" "grok-3-latest" none (NetResult.transportFail "dns")).result
      = Except.error (PyError.valueError "API key is not set or is invalid") :=
  C2_missing_credential_before_network "  " "k" "q" "grok-3-latest" none
    (NetResult.transportFail "dns") (by decide) (by decide)

/-- C5: for all four recognized source kinds and every combination of
supplied options, the built configuration never carries a field outside
that kind's allowed set: `web`/`news` carry no `x_handles` or `links`,
`x` carries no `country`, `excluded_websites`, `safe_search` or
`links`, and `rss` carries no `country`, `excluded_websites`,
`safe_search` or `x_handles`. -/
theorem C5_no_foreign_fields (c : Option String)
    (ew : Option (List String)) (ss : Option Bool)
    (xh lk : Option (List String)) :
    ((build_source_config "web" c ew ss xh lk).x_handles = none ∧
      (build_source_config "web" c ew ss xh lk).links = none) ∧
    ((build_source_config "news" c ew ss xh lk).x_handles = none ∧
      (build_source_config "news" c ew ss xh lk).links = none) ∧
    ((build_source_config "x" c ew ss xh lk).country = none ∧
      (build_source_config "x" c ew ss xh lk).excluded_websites = none ∧
      (build_source_config "x" c ew ss xh lk).safe_search = none ∧
      (build_source_config "x" c ew ss xh lk).links = none) ∧
    ((build_source_config "rss" c ew ss xh lk).country = none ∧
      (build_source_config "rss" c ew ss xh lk).excluded_websites = none ∧
      (build_source_config "rss" c ew ss xh lk).safe_search = none ∧
      (build_source_config "rss" c ew ss xh lk).x_handles = none) := by
  simp [build_source_config]

/-- C8: for the `web` and `news` kinds, `safe_search` is tri-state:
leaving the option unset omits the field, while explicitly supplying
`false` or `true` stores that exact value, whatever the other options
are. -/
theorem C8_safe_search_tristate (c : Option String)
    (ew : Option (List String)) (xh lk : Option (List String)) :
    ((build_source_config "web" c ew none xh lk).safe_search = none ∧
      (build_source_config "web" c ew (some false) xh lk).safe_search = some false ∧
      (build_source_config "web" c ew (some true) xh lk).safe_search = some true) ∧
    ((build_source_config "news" c ew none xh lk).safe_search = none ∧
      (build_source_config "news" c ew (some false) xh lk).safe_search = some false ∧
      (build_source_config "news" c ew (some true) xh lk).safe_search = some true) := by
  simp [build_source_config]

/-- C9: `build_search_parameters` leaves the `sources` key entirely
absent when the sources argument is unset or the empty list, and stores
a non-empty list as given, whatever the other arguments are. -/
theorem C9_sources_key_absence (mode : String) (fd td : Option String)
    (mx : Int) (rc : Bool) (s : SourceConfig) (rest : List SourceConfig) :
    (build_search_parameters mode none fd td mx rc).sources = none ∧
    (build_search_parameters mode (some []) fd td mx rc).sources = none ∧
    (build_search_parameters mode (some (s :: rest)) fd td mx rc).sources
      = some (s :: rest) := by
  simp [build_search_parameters, truthyListOpt]

/-- C10: with a valid key and the search parameters argument left
unset, `execute_search` silently substitutes the default parameters
object — mode "auto", max_search_results 20, return_citations true,
with no sources, from_date or to_date keys — into the transmitted
envelope, for every query, model and network behaviour. -/
theorem C10_default_parameters_substituted (key q m : String)
    (net : NetResult) (hk : validate_api_key (some key) = true) :
    (execute_search (some key) q m none net).sent
      = some { messages := [{ role := "user", content := q }]
               search_parameters :=
                 { mode := "auto", sources := none, from_date := none
                   to_date := none, max_search_results := 20
                   return_citations := true }
               model := m } := by
  simp [execute_search, hk, build_search_parameters, truthyListOpt,
    truthyStrOpt]

/-- C10 witness at the key `"k"`. -/
theorem C10_default_parameters_substituted_witness :
    (execute_search (some "k") "q" "grok-3-latest" none
        (NetResult.transportFail "dns")).sent
      = some { messages := [{ role := "user", content := "q" }]
               search_parameters :=
                 { mode := "auto", sources := none, from_date := none
                   to_date := none, max_search_results := 20
                   return_citations := true }
               model := "grok-3-latest" } :=
  C10_default_parameters_substituted "k" "q" "grok-3-latest"
    (NetResult.transportFail "dns") (by decide)

/-- C4 counterexample: with the valid key `"k"` and the empty query,
`execute_search` does not fail before sending: it performs the network
call, transmits the empty query as the user message content, and here
returns the decoded body. -/
theorem C4_cex_empty_query_transmitted :
    (execute_search (some "k") "" "grok-3-latest" none
        (NetResult.response 200 "null" (some Json.null))).netCalls = 1 ∧
    (execute_search (some "k") "" "grok-3-latest" none
        (NetResult.response 200 "null" (some Json.null))).sent
      = some { messages := [{ role := "user", content := "" }]
               search_parameters := default_search_parameters
               model := "grok-3-latest" } ∧
    (execute_search (some "k") "" "grok-3-latest" none
        (NetResult.response 200 "null" (some Json.null))).result
      = Except.ok Json.null :=
  ⟨rfl, rfl, rfl⟩

/-- C4 amended: `execute_search` performs no query validation at all:
whenever the credential check passes, the request is sent — one network
call — with the query, empty or not, transmitted verbatim as the user
message content. -/
theorem C4_amended_no_query_validation (key q m : String)
    (sp : Option SearchParams) (net : NetResult)
    (hk : validate_api_key (some key) = true) :
    (execute_search (some key) q m sp net).netCalls = 1 ∧
    (execute_search (some key) q m sp net).sent
      = some { messages := [{ role := "user", content := q }]
               search_parameters := sp.getD default_search_parameters
               model := m } := by
  cases sp <;>
    simp [execute_search, hk, default_search_parameters]

/-- C4 amended witness at the key `"k"` and the empty query. -/
theorem C4_amended_no_query_validation_witness :
    (execute_search (some "k") "" "grok-3-latest" none
        (NetResult.transportFail "dns")).netCalls = 1 ∧
    (execute_search (some "k") "" "grok-3-latest" none
        (NetResult.transportFail "dns")).sent
      = some { messages := [{ role := "user", content := "" }]
               search_parameters :=
                 (none : Option SearchParams).getD default_search_parameters
               model := "grok-3-latest" } :=
  C4_amended_no_query_validation "k" "" "grok-3-latest" none
    (NetResult.transportFail "dns") (by decide)

/-- C3 counterexample: called with the unrecognized kind `"bogus"`, the
source's builder does not fail: it returns the type-only config with
every supplied option ignored, while the spec-modelled builder fails
with `UnknownSourceKind` there. -/
theorem C3_cex_unknown_kind_accepted :
    build_source_config "bogus" (some "US") (some ["x.com"]) (some true)
        (some ["handle"]) (some ["link"])
      = { type := "bogus", country := none, excluded_websites := none
          safe_search := none, x_handles := none, links := none } ∧
    build_source_config_spec "bogus" (some "US") (some ["x.com"]) (some true)
        (some ["handle"]) (some ["link"])
      = Except.error "UnknownSourceKind" :=
  ⟨by decide, rfl⟩

/-- C3 amended: `build_source_config` never fails: the four recognized
kinds always produce their variant, and every unrecognized kind
silently produces the config carrying only the `type` field, all
options ignored. -/
theorem C3_amended_builder_total (k : String) (c : Option String)
    (ew : Option (List String)) (ss : Option Bool)
    (xh lk : Option (List String))
    (h1 : k ≠ "web") (h2 : k ≠ "news") (h3 : k ≠ "x") (h4 : k ≠ "rss") :
    build_source_config k c ew ss xh lk
      = { type := k, country := none, excluded_websites := none
          safe_search := none, x_handles := none, links := none } ∧
    (build_source_config "web" c ew ss xh lk).type = "web" ∧
    (build_source_config "x" c ew ss xh lk).type = "x" ∧
    (build_source_config "news" c ew ss xh lk).type = "news" ∧
    (build_source_config "rss" c ew ss xh lk).type = "rss" := by
  refine ⟨?_, by simp [build_source_config], by simp [build_source_config],
    by simp [build_source_config], by simp [build_source_config]⟩
  simp [build_source_config, h1, h2, h3, h4]

/-- C3 amended witness at the kind `"bogus"`. -/
theorem C3_amended_builder_total_witness :
    build_source_config "bogus" (some "US") none (some true) none none
      = { type := "bogus", country := none, excluded_websites := none
          safe_search := none, x_handles := none, links := none } ∧
    (build_source_config "web" (some "US") none (some true) none none).type = "web" ∧
    (build_source_config "x" (some "US") none (some true) none none).type = "x" ∧
    (build_source_config "news" (some "US") none (some true) none none).type = "news" ∧
    (build_source_config "rss" (some "US") none (some true) none none).type = "rss" :=
  C3_amended_builder_total "bogus" (some "US") none (some true) none none
    (by decide) (by decide) (by decide) (by decide)

/-- C1 counterexample: with the valid key `"k"`, a 404 response and a
transport failure both surface as the same Python error class — the
generic `requests.RequestException` the final `except` clause
re-raises — so the two failure kinds are not distinct; the 404 error's
message is derived from the status alone and does not contain the
response body (`"secret-body"` is lost); and a 304 response — a non-2xx
status `raise_for_status` does not raise on — does not fail at all. -/
theorem C1_cex_error_kinds_collapsed :
    (execute_search (some "k") "q" "grok-3-latest" none
        (NetResult.response 404 "secret-body" none)).result
      = Except.error (PyError.requestException
          ("API request failed: " ++ httpErrorStr 404)) ∧
    (execute_search (some "k") "q" "grok-3-latest" none
        (NetResult.transportFail "connection refused")).result
      = Except.error (PyError.requestException
          "API request failed: connection refused") ∧
    errClassOf (execute_search (some "k") "q" "grok-3-latest" none
        (NetResult.response 404 "secret-body" none)).result
      = errClassOf (execute_search (some "k") "q" "grok-3-latest" none
        (NetResult.transportFail "connection refused")).result ∧
    strContains ("API request failed: " ++ httpErrorStr 404) "secret-body"
      = false ∧
    (execute_search (some "k") "q" "grok-3-latest" none
        (NetResult.response 304 "b" (some (Json.str "j")))).result
      = Except.ok (Json.str "j") :=
  ⟨rfl, rfl, rfl, by decide, rfl⟩

/-- C1 amended: with a valid key, a 4xx/5xx HTTP status and a transport
failure both make `execute_search` fail, but as the same generic
`requests.RequestException` class wrapping only a formatted message:
the HTTP case's message is derived from the status alone (no structured
status or body field survives), the transport case wraps the cause, and
the two outcomes have the same error class. -/
theorem C1_amended_single_error_class (key q m : String)
    (sp : Option SearchParams) (status : Nat) (body cause : String)
    (jb : Option Json) (hk : validate_api_key (some key) = true)
    (hst : 400 ≤ status ∧ status < 600) :
    (execute_search (some key) q m sp (NetResult.response status body jb)).result
      = Except.error (PyError.requestException
          ("API request failed: " ++ httpErrorStr status)) ∧
    (execute_search (some key) q m sp (NetResult.transportFail cause)).result
      = Except.error (PyError.requestException
          ("API request failed: " ++ cause)) ∧
    errClassOf (execute_search (some key) q m sp
        (NetResult.response status body jb)).result
      = errClassOf (execute_search (some key) q m sp
        (NetResult.transportFail cause)).result := by
  have hres : (execute_search (some key) q m sp
      (NetResult.response status body jb)).result
      = Except.error (PyError.requestException
          ("API request failed: " ++ httpErrorStr status)) := by
    simp [execute_search, hk, requestOutcome, hst]
  have htr : (execute_search (some key) q m sp
      (NetResult.transportFail cause)).result
      = Except.error (PyError.requestException
          ("API request failed: " ++ cause)) := by
    simp [execute_search, hk, requestOutcome]
  refine ⟨hres, htr, ?_⟩
  rw [hres, htr]
  rfl

/-- C1 amended witness at the key `"k"` and a 503 status. -/
theorem C1_amended_single_error_class_witness :
    (execute_search (some "k") "q" "grok-3-latest" none
        (NetResult.response 503 "overloaded" none)).result
      = Except.error (PyError.requestException
          ("API request failed: " ++ httpErrorStr 503)) ∧
    (execute_search (some "k") "q" "grok-3-latest" none
        (NetResult.transportFail "timeout")).result
      = Except.error (PyError.requestException
          "API request failed: timeout") ∧
    errClassOf (execute_search (some "k") "q" "grok-3-latest" none
        (NetResult.response 503 "overloaded" none)).result
      = errClassOf (execute_search (some "k") "q" "grok-3-latest" none
        (NetResult.transportFail "timeout")).result :=
  C1_amended_single_error_class "k" "q" "grok-3-latest" none 503
    "overloaded" "timeout" none (by decide) (by decide)

/-- C6 counterexample: `parse_response` is not total on response
shapes: on the response whose `choices` is the list `[5]` the Python
code evaluates `"message" in 5` and raises a `TypeError` instead of
returning a degraded result. -/
theorem C6_cex_parse_raises_on_irregular_element :
    parse_response [("choices", Json.arr [Json.num 5])]
      = Except.error "TypeError: argument is not iterable" :=
  rfl

/-- C6 amended: `parse_response` never raises on responses whose
`choices` key is absent or maps to a falsy value, or maps to a list
whose first element is a dict whose `message` value (when the key is
present) is itself a dict: on these it returns the structurally valid
result with `content` and `citations` degraded to the empty string and
empty list when the fields are missing; but on other irregular shapes
(a non-subscriptable `choices` value, a non-dict first element, a
non-dict `message` carrying the looked-up key) it can raise. -/
theorem C6_amended_never_raises_on_guarded_shapes
    (resp : List (String × Json)) (h : goodShape resp = true) :
    parse_response resp
      = Except.ok ⟨spec_content resp, spec_citations resp, resp⟩ :=
  parse_goodShape_ok resp h

/-- C6 amended witness on a response missing every expected field:
`choices` maps to a one-element list holding the empty dict. -/
theorem C6_amended_never_raises_on_guarded_shapes_witness :
    parse_response [("choices", Json.arr [Json.obj []])]
      = Except.ok ⟨Json.str "", Json.arr [],
          [("choices", Json.arr [Json.obj []])]⟩ :=
  C6_amended_never_raises_on_guarded_shapes
    [("choices", Json.arr [Json.obj []])] rfl

/-- C7: whenever `parse_response` returns a result, the result's
`content` is the first choice's nested `message` body's `content`
copied verbatim when that chain is present and the empty string
otherwise; its `citations` is the first choice's `citations` value
copied verbatim (order and duplicates preserved) when the key is
present and the empty list otherwise; and its `raw` always equals the
input unmodified. -/
theorem C7_parse_result_exact (resp : List (String × Json))
    (r : ParsedResult) (h : parse_response resp = Except.ok r) :
    r.content = spec_content resp ∧
    r.citations = spec_citations resp ∧
    r.raw = resp := by
  rw [parse_ok_spec resp r h]
  exact ⟨rfl, rfl, rfl⟩

/-- C7 witness on a response carrying content `"hello"` and a
duplicated citation. -/
theorem C7_parse_result_exact_witness :
    (Json.str "hello"
      = spec_content [("choices", Json.arr [Json.obj
          [("message", Json.obj [("content", Json.str "hello")]),
           ("citations", Json.arr [Json.str "https://a", Json.str "https://a"])]])]) ∧
    (Json.arr [Json.str "https://a", Json.str "https://a"]
      = spec_citations [("choices", Json.arr [Json.obj
          [("message", Json.obj [("content", Json.str "hello")]),
           ("citations", Json.arr [Json.str "https://a", Json.str "https://a"])]])]) ∧
    ([("choices", Json.arr [Json.obj
          [("message", Json.obj [("content", Json.str "hello")]),
           ("citations", Json.arr [Json.str "https://a", Json.str "https://a"])]])]
      = [("choices", Json.arr [Json.obj
          [("message", Json.obj [("content", Json.str "hello")]),
           ("citations", Json.arr [Json.str "https://a", Json.str "https://a"])]])]) :=
  C7_parse_result_exact
    [("choices", Json.arr [Json.obj
        [("message", Json.obj [("content", Json.str "hello")]),
         ("citations", Json.arr [Json.str "https://a", Json.str "https://a"])]])]
    ⟨Json.str "hello", Json.arr [Json.str "https://a", Json.str "https://a"],
      [("choices", Json.arr [Json.obj
          [("message", Json.obj [("content", Json.str "hello")]),
           ("citations", Json.arr [Json.str "https://a", Json.str "https://a"])]])]⟩
    rfl
